import Mathlib

/-!
Verification development for the multiset-vps-webxr SDK core.

The two source files embedded here are `src/lib/core/index.ts`
(the `MultisetClient` localization client) and `src/lib/webxr/index.ts`
(the `WebxrController` session lifecycle manager and frame-capture
pipeline).  Effectful TypeScript is embedded as pure Lean functions:

* JavaScript numbers are modelled as rationals (`ℚ`); pixel counts as `Nat`.
* Thrown errors / rejected promises are `Except SdkError`.
* Observable side effects (notification callbacks firing, network requests
  being issued, the DOM button being created) are recorded in an explicit
  `Event` log returned alongside each operation's result.
* External collaborators (the network, the GPU / canvas JPEG encoder, the
  XR runtime's per-frame data) are oracles passed in as parameters; the
  embedded code is quantified over all of their behaviours.
-/

namespace MultisetVps

/-! ### Data model (from `src/lib/core/types.ts` and `core/index.ts`) -/

/-- A binary `Blob`; only its byte size is observable to the embedded code
(`blob.size` is tested against zero in `getCameraTextureAsImage`). -/
structure Blob where
  size : Nat
  deriving DecidableEq, Repr

/-- `IFrameCaptureEvent`: encoded image bytes plus pixel dimensions. -/
structure IFrameCaptureEvent where
  blob : Blob
  width : Nat
  height : Nat
  deriving DecidableEq, Repr

/-- `ICameraIntrinsicsEvent`: pinhole intrinsics derived per capture. -/
structure ICameraIntrinsicsEvent where
  fx : ℚ
  fy : ℚ
  px : ℚ
  py : ℚ
  width : ℚ
  height : ℚ
  deriving DecidableEq, Repr

/-- `IPosition` from `types.ts`. -/
structure IPosition where
  x : ℚ
  y : ℚ
  z : ℚ
  deriving DecidableEq, Repr

/-- `IRotation` (quaternion) from `types.ts`. -/
structure IRotation where
  x : ℚ
  y : ℚ
  z : ℚ
  w : ℚ
  deriving DecidableEq, Repr

/-- `ILocalizeResponse`: the localization service's response JSON. -/
structure ILocalizeResponse where
  poseFound : Bool
  position : IPosition
  rotation : IRotation
  retrieval_scores : List ℚ
  num_matches : List Nat
  confidence : ℚ
  retrieved_imgs : List String
  mapIds : List String
  deriving DecidableEq, Repr

/-- `IMapLocation` from `types.ts`. -/
structure IMapLocation where
  type : String
  coordinates : ℚ × ℚ × ℚ
  _id : String
  deriving DecidableEq, Repr

/-- `ICameraIntrinsicsResponse` from `types.ts`. -/
structure ICameraIntrinsicsResponse where
  fx : ℚ
  fy : ℚ
  px : ℚ
  py : ℚ
  deriving DecidableEq, Repr

/-- `IMeshInfo` from `types.ts`. -/
structure IMeshInfo where
  type : String
  meshLink : String
  deriving DecidableEq, Repr

/-- `IMapMesh` from `types.ts`. -/
structure IMapMesh where
  rawMesh : IMeshInfo
  texturedMesh : IMeshInfo
  deriving DecidableEq, Repr

/-- `IResolution` from `types.ts`. -/
structure IResolution where
  width : Nat
  height : Nat
  deriving DecidableEq, Repr

/-- `IMapSource` from `types.ts`. -/
structure IMapSource where
  provider : String
  fileType : String
  coordinateSystem : String
  deriving DecidableEq, Repr

/-- `IGetMapsDetailsResponse`: map metadata returned by the detail fetch. -/
structure IGetMapsDetailsResponse where
  _id : String
  accountId : String
  mapName : String
  location : IMapLocation
  status : String
  storage : Nat
  createdAt : String
  updatedAt : String
  cameraIntrinsics : ICameraIntrinsicsResponse
  mapMesh : IMapMesh
  resolution : IResolution
  globalFeature : String
  mapCode : String
  source : IMapSource
  deriving DecidableEq, Repr

/-- `ILocalizeAndMapDetails`: the result of `localizeWithFrame`.  The
optional `mapDetails` field is present exactly when the best-effort map
detail fetch succeeded. -/
structure ILocalizeAndMapDetails where
  localizeData : ILocalizeResponse
  mapDetails : Option IGetMapsDetailsResponse := none
  deriving DecidableEq, Repr

/-- `MapType`: `'map' | 'map-set'`. -/
inductive MapType where
  | map
  | mapSet
  deriving DecidableEq, Repr

/-- The error taxonomy.  In the TypeScript source each of these is a plain
`Error` with a distinct message; distinct constructors model the distinct
messages.  `notInitialized` carries the message's leading tag
(`"Scene"`, `"Camera"`, `"Renderer"` or `"WebXR"`). -/
inductive SdkError where
  | secureContext
  | notInitialized (who : String)
  | noActiveSession
  | noReferenceSpace
  | missingToken
  deriving DecidableEq, Repr

/-- Observable side effects, in the order they occur.  Notification events
model the configured callbacks (`onFrameCaptured`, `onCameraIntrinsics`,
`onPoseResult`, `onError`, `onARButtonCreated`); `localizePost` and
`mapDetailsGet` model the outgoing network requests; `frameCallback` marks
the XR runtime running the per-frame callback scheduled by `captureFrame`. -/
inductive Event where
  | frameCaptured (frame : IFrameCaptureEvent)
  | cameraIntrinsics (intrinsics : ICameraIntrinsicsEvent)
  | poseResult (data : ILocalizeResponse)
  | errorNotified
  | localizePost
  | mapDetailsGet (mapId : String)
  | arButtonCreated (buttonId : Nat)
  | frameCallback
  deriving DecidableEq, Repr

/-- True exactly on `mapDetailsGet` events (used to count detail fetches). -/
def Event.isMapDetailsGet : Event → Bool
  | .mapDetailsGet _ => true
  | _ => false

/-! ### The localization client (from `src/lib/core/index.ts`) -/

/-- The mutable/configured state of a `MultisetClient` that the embedded
operations read: the configured map type and code, and the stored
`accessToken` (absent until `authorize()` succeeds). -/
structure ClientState where
  mapType : MapType
  code : String
  accessToken : Option String
  deriving DecidableEq, Repr

/-- Network oracle: the service's answer to the localization POST and to
each map-detail GET.  `.error ()` models a transport/HTTP failure (an axios
rejection). -/
structure NetOracle where
  localize : Except Unit ILocalizeResponse
  mapDetails : String → Except Unit IGetMapsDetailsResponse

/-- `MultisetClient.fetchMapDetails`: bearer-authenticated GET for one map
id; a failure is caught internally (`handleError` fires the error
notification) and surfaces as `none`. -/
def fetchMapDetails (net : NetOracle) (mapId : String) :
    Option IGetMapsDetailsResponse × List Event :=
  match net.mapDetails mapId with
  | .ok d => (some d, [.mapDetailsGet mapId])
  | .error _ => (none, [.mapDetailsGet mapId, .errorNotified])

/-- `MultisetClient.queryLocalization`: issues the multipart POST; a
transport failure is caught (`handleError`) and yields `none`; a
`poseFound = false` body yields `none`; otherwise the result carries the
response, enriched with map details when `mapIds` is non-empty and the
detail fetch succeeds. -/
def queryLocalization (net : NetOracle) :
    Option ILocalizeAndMapDetails × List Event :=
  match net.localize with
  | .error _ => (none, [.localizePost, .errorNotified])
  | .ok data =>
    if !data.poseFound then
      (none, [.localizePost])
    else
      match data.mapIds with
      | [] => (some { localizeData := data }, [.localizePost])
      | m :: _ =>
        let fetched := fetchMapDetails net m
        (some { localizeData := data, mapDetails := fetched.1 },
         .localizePost :: fetched.2)

/-- `MultisetClient.localizeWithFrame`: throws `MissingTokenError` when no
token is stored; otherwise fires the frame-captured and intrinsics
notifications, runs `queryLocalization`, and fires the pose-result
notification when the resolved result carries `poseFound = true`. -/
def localizeWithFrame (cs : ClientState) (net : NetOracle)
    (frame : IFrameCaptureEvent) (intrinsics : ICameraIntrinsicsEvent) :
    Except SdkError (Option ILocalizeAndMapDetails) × List Event :=
  match cs.accessToken with
  | none => (.error .missingToken, [])
  | some _ =>
    let queried := queryLocalization net
    let poseEvents :=
      match queried.1 with
      | some result =>
        if result.localizeData.poseFound then [Event.poseResult result.localizeData] else []
      | none => []
    (.ok queried.1,
     .frameCaptured frame :: .cameraIntrinsics intrinsics :: queried.2 ++ poseEvents)

/-! ### The WebXR controller (from `src/lib/webxr/index.ts`) -/

/-- The `renderer.xr` manager: the current `XRSession` (what
`renderer.xr.getSession()` returns), the reference space, whether the
runtime reports it is presenting, and how many
sessionstart/sessionend listener pairs were registered on this renderer
(the source registers exactly one pair, in `initialize`). -/
structure XrManagerM where
  session : Option Unit
  referenceSpace : Option Unit
  isPresenting : Bool
  sessionListenerPairs : Nat
  deriving DecidableEq, Repr

/-- A `THREE.WebGLRenderer` handle: its identity, its `xr` manager, and
whether `setAnimationLoop` installed the continuous render loop. -/
structure RendererM where
  id : Nat
  xr : XrManagerM
  animationLoopSet : Bool
  deriving DecidableEq, Repr

/-- The fields of a `WebxrController`, together with the slice of the
surrounding browser world it mutates: the set of handlers registered via
`window.addEventListener("resize", ...)` and the set of elements attached
to the document (the AR button lives there between `initialize` and
`dispose`).  Handles (camera, scene, animation loop, button, resize
handler) are identified by the `Nat` id they were allocated; `nextId`
feeds fresh ids. -/
structure WxState where
  renderer : Option RendererM
  camera : Option Nat
  scene : Option Nat
  animationLoop : Option Nat
  arButton : Option Nat
  resizeHandler : Option Nat
  isSessionActive : Bool
  windowResizeListeners : Finset Nat
  docChildren : Finset Nat
  nextId : Nat
  deriving DecidableEq

/-- The state the `WebxrController` constructor produces: every handle
null, session inactive, nothing registered. -/
def initialState : WxState where
  renderer := none
  camera := none
  scene := none
  animationLoop := none
  arButton := none
  resizeHandler := none
  isSessionActive := false
  windowResizeListeners := ∅
  docChildren := ∅
  nextId := 0

/-- Environment for `initialize`: whether `window.isSecureContext` holds.
DOM container resolution (call-time container / configured container /
overlay root) only decides which parent the button is appended to and is
not otherwise observable here. -/
structure InitEnv where
  secureContext : Bool
  deriving DecidableEq, Repr

/-- `WebxrController.initialize`: returns the existing AR button at once
when a renderer already exists (the early idempotence return, modelling
`return this.arButton!` by `Option.getD`); otherwise checks the secure
context, allocates renderer/camera/scene, registers the
sessionstart/sessionend pair on the new renderer, starts the render loop,
registers the window resize handler, creates the AR button, appends it to
the document, stores every handle and fires `onARButtonCreated`. -/
def initializeController (st : WxState) (env : InitEnv) :
    Except SdkError (WxState × Nat) × List Event :=
  match st.renderer with
  | some _ => (.ok (st, st.arButton.getD 0), [])
  | none =>
    if !env.secureContext then
      (.error .secureContext, [])
    else
      let rendererId := st.nextId
      let cameraId := st.nextId + 1
      let sceneId := st.nextId + 2
      let loopId := st.nextId + 3
      let resizeId := st.nextId + 4
      let buttonId := st.nextId + 5
      let renderer : RendererM :=
        { id := rendererId
          xr := { session := none, referenceSpace := none,
                  isPresenting := false, sessionListenerPairs := 1 }
          animationLoopSet := true }
      let st' : WxState :=
        { st with
          renderer := some renderer
          camera := some cameraId
          scene := some sceneId
          animationLoop := some loopId
          arButton := some buttonId
          resizeHandler := some resizeId
          windowResizeListeners := insert resizeId st.windowResizeListeners
          docChildren := insert buttonId st.docChildren
          nextId := st.nextId + 6 }
      (.ok (st', buttonId), [.arButtonCreated buttonId])

/-- `WebxrController.getScene`. -/
def getScene (st : WxState) : Except SdkError Nat :=
  match st.scene with
  | none => .error (.notInitialized "Scene")
  | some s => .ok s

/-- `WebxrController.getCamera`. -/
def getCamera (st : WxState) : Except SdkError Nat :=
  match st.camera with
  | none => .error (.notInitialized "Camera")
  | some c => .ok c

/-- `WebxrController.getRenderer`. -/
def getRenderer (st : WxState) : Except SdkError RendererM :=
  match st.renderer with
  | none => .error (.notInitialized "Renderer")
  | some r => .ok r

/-- `WebxrController.hasActiveSession`:
`this.isSessionActive && this.renderer?.xr.isPresenting === true`. -/
def hasActiveSession (st : WxState) : Bool :=
  st.isSessionActive &&
    (match st.renderer with
     | some r => r.xr.isPresenting
     | none => false)

/-- `WebxrController.dispose`: removes the window resize listener (a
removal of an already-removed listener is a DOM no-op, hence `erase`),
disposes and nulls the renderer (the sessionstart/sessionend listeners
are owned by that renderer object and are released with it), nulls the
animation loop, camera and scene handles, removes the AR button from its
parent when it has one, and nulls the button handle.  The source does not
null `resizeHandler` and does not reset `isSessionActive`; neither does
this model. -/
def dispose (st : WxState) : WxState :=
  let windowListeners :=
    match st.resizeHandler with
    | some h => st.windowResizeListeners.erase h
    | none => st.windowResizeListeners
  let doc :=
    match st.arButton with
    | some b => if b ∈ st.docChildren then st.docChildren.erase b else st.docChildren
    | none => st.docChildren
  { st with
    renderer := none
    camera := none
    scene := none
    animationLoop := none
    arButton := none
    windowResizeListeners := windowListeners
    docChildren := doc }

/-! ### Frame capture pipeline (from `src/lib/webxr/index.ts`) -/

/-- An `XRViewport`; `captureFrame` always passes
`{ width, height, x := 0, y := 0 }`. -/
structure XRViewportM where
  width : ℚ
  height : ℚ
  x : ℚ
  y : ℚ
  deriving DecidableEq, Repr

/-- `getCameraIntrinsics`: derives pixel-space pinhole intrinsics from the
column-major 4x4 projection matrix `p` and the viewport. -/
def getCameraIntrinsics (p : Fin 16 → ℚ) (viewport : XRViewportM) :
    ICameraIntrinsicsEvent :=
  let u0 := ((1 - p 8) * viewport.width) / 2 + viewport.x
  let v0 := ((1 - p 9) * viewport.height) / 2 + viewport.y
  let ax := (viewport.width / 2) * p 0
  let ay := (viewport.height / 2) * p 5
  { fx := ax, fy := ay, px := u0, py := v0,
    width := viewport.width, height := viewport.height }

/-- The vertical flip performed in `getCameraTextureAsImage`: the source
loop writes source row `row` to destination row `height - row - 1`
(each row is `width * 4` bytes), so destination row `destRow` holds
source row `height - destRow - 1`. -/
def flipVertical (width height : Nat) (buf : List Nat) : List Nat :=
  ((List.range height).map (fun destRow =>
    (buf.drop ((height - destRow - 1) * (width * 4))).take (width * 4))).flatten

/-- GPU / canvas oracle for one capture attempt on one view: whether
`renderer.getContext()` and `gl.createFramebuffer()` succeed, the pixel
buffer `gl.readPixels` reads back, and the byte size `canvas.toBlob`
produces for a given buffer at a given JPEG quality. -/
structure GpuOracle where
  glOk : Bool
  framebufferOk : Bool
  pixels : List Nat
  jpegSize : List Nat → ℚ → Nat

/-- `compressToJpeg`: paints the buffer on a canvas and encodes it; the
resulting blob (only its size is observable) comes from the encoder
oracle. -/
def compressToJpeg (gpu : GpuOracle) (buffer : List Nat) (quality : ℚ) : Blob :=
  { size := gpu.jpegSize buffer quality }

/-- `getCameraTextureAsImage`: binds the camera texture to a fresh
framebuffer, reads the pixels back, vertically flips them, encodes them as
JPEG at quality 0.7, and returns `none` when the context or framebuffer is
unavailable or the encoded blob is empty. -/
def getCameraTextureAsImage (gpu : GpuOracle) (width height : Nat) :
    Option IFrameCaptureEvent :=
  if !gpu.glOk then none
  else if !gpu.framebufferOk then none
  else
    let flippedData := flipVertical width height gpu.pixels
    let blob := compressToJpeg gpu flippedData (7 / 10)
    if blob.size = 0 then none
    else some { blob := blob, width := width, height := height }

/-- The `view.camera` attachment of an `XRView` (pixel dimensions). -/
structure XrCameraM where
  width : Nat
  height : Nat
  deriving DecidableEq, Repr

/-- One `XRView` of the viewer pose, together with the per-view oracles:
whether `XRWebGLBinding.getCameraImage` yields a texture, and the GPU
read-back/encoding behaviour for that texture. -/
structure XrViewM where
  projectionMatrix : Fin 16 → ℚ
  camera : Option XrCameraM
  cameraImage : Bool
  gpu : GpuOracle

/-- Frame oracle: what `xrFrame.getViewerPose(referenceSpace)` returns in
the scheduled animation-frame callback (`none` models tracking loss). -/
structure FrameOracle where
  viewerPose : Option (List XrViewM)

/-- The view loop inside the `captureFrame` animation-frame callback:
skips views without a camera, without a camera texture, or with a zero
dimension; on the first view whose read-back/encoding yields frame data it
derives the intrinsics (viewport offsets 0) and resolves with the result
of `client.localizeWithFrame`; an exception there (the missing-token
throw) rejects the capture. -/
def processViews (cs : ClientState) (net : NetOracle) :
    List XrViewM → Except SdkError (Option ILocalizeAndMapDetails) × List Event
  | [] => (.ok none, [])
  | v :: rest =>
    match v.camera with
    | none => processViews cs net rest
    | some xrCamera =>
      if !v.cameraImage then processViews cs net rest
      else if xrCamera.width = 0 || xrCamera.height = 0 then processViews cs net rest
      else
        let frameData := getCameraTextureAsImage v.gpu xrCamera.width xrCamera.height
        let intrinsics := getCameraIntrinsics v.projectionMatrix
          { width := xrCamera.width, height := xrCamera.height, x := 0, y := 0 }
        match frameData with
        | some fd => localizeWithFrame cs net fd intrinsics
        | none => processViews cs net rest

/-- `WebxrController.captureFrame`: rejects with the not-initialized error
when the renderer or camera handle is missing, then with the
no-active-session error when `renderer.xr.getSession()` yields nothing,
then with the no-reference-space error; only past all three checks does it
schedule the animation-frame callback (`frameCallback` event), which
resolves `none` on tracking loss and otherwise runs the view loop. -/
def captureFrame (st : WxState) (cs : ClientState) (fo : FrameOracle)
    (net : NetOracle) :
    Except SdkError (Option ILocalizeAndMapDetails) × List Event :=
  match st.renderer, st.camera with
  | none, _ => (.error (.notInitialized "WebXR"), [])
  | some _, none => (.error (.notInitialized "WebXR"), [])
  | some renderer, some _ =>
    match renderer.xr.session with
    | none => (.error .noActiveSession, [])
    | some _ =>
      match renderer.xr.referenceSpace with
      | none => (.error .noReferenceSpace, [])
      | some _ =>
        let run :=
          match fo.viewerPose with
          | none => ((.ok none : Except SdkError (Option ILocalizeAndMapDetails)), ([] : List Event))
          | some views => processViews cs net views
        (run.1, .frameCallback :: run.2)

/-! ### Helper lemmas about the vertical flip -/

/-- Decompose a flat buffer into `h` consecutive rows of `k` entries. -/
def toRows (k h : Nat) (buf : List Nat) : List (List Nat) :=
  (List.range h).map (fun r => (buf.drop (r * k)).take k)

theorem range_reverse_eq (n : Nat) :
    (List.range n).reverse = (List.range n).map (fun r => n - 1 - r) := by
  have h := List.reverse_range' 0 n
  rw [← List.range_eq_range'] at h
  simpa using h

theorem flipVertical_eq_reverse_rows (w h : Nat) (buf : List Nat) :
    flipVertical w h buf = ((toRows (w * 4) h buf).reverse).flatten := by
  unfold flipVertical toRows
  rw [← List.map_reverse, range_reverse_eq, List.map_map]
  have hfun : (fun destRow => (buf.drop ((h - destRow - 1) * (w * 4))).take (w * 4))
      = ((fun r => (buf.drop (r * (w * 4))).take (w * 4)) ∘ fun r => h - 1 - r) := by
    funext r
    simp only [Function.comp]
    rw [Nat.sub_right_comm]
  rw [hfun]

theorem flatten_toRows (k h : Nat) :
    ∀ buf : List Nat, buf.length = h * k → (toRows k h buf).flatten = buf := by
  induction h with
  | zero =>
    intro buf hlen
    rw [Nat.zero_mul, List.length_eq_zero] at hlen
    subst hlen
    simp [toRows]
  | succ n ih =>
    intro buf hlen
    rw [toRows, List.range_succ_eq_map, List.map_cons, List.map_map,
        List.flatten_cons, Nat.zero_mul, List.drop_zero]
    have htail :
        (List.range n).map ((fun r => (buf.drop (r * k)).take k) ∘ Nat.succ)
          = toRows k n (buf.drop k) := by
      rw [toRows]
      congr 1
      funext r
      simp only [Function.comp, List.drop_drop]
      rw [Nat.succ_mul, Nat.add_comm (r * k) k]
    rw [htail, ih (buf.drop k) (by rw [List.length_drop, hlen, Nat.succ_mul]; omega)]
    exact List.take_append_drop k buf

theorem toRows_mem_length (k h : Nat) (buf : List Nat) (hlen : buf.length = h * k)
    (l : List Nat) (hl : l ∈ toRows k h buf) : l.length = k := by
  rw [toRows, List.mem_map] at hl
  obtain ⟨r, hr, rfl⟩ := hl
  rw [List.mem_range] at hr
  rw [List.length_take, List.length_drop, hlen]
  have hrk : r * k + k ≤ h * k := by
    calc r * k + k = (r + 1) * k := (Nat.succ_mul r k).symm
    _ ≤ h * k := Nat.mul_le_mul_right k hr
  omega

theorem toRows_flatten (k : Nat) :
    ∀ L : List (List Nat), (∀ l ∈ L, l.length = k) →
      toRows k L.length L.flatten = L := by
  intro L
  induction L with
  | nil => intro _; simp [toRows]
  | cons a L ih =>
    intro hmem
    have ha : a.length = k := hmem a (by simp)
    rw [List.flatten_cons, List.length_cons, toRows, List.range_succ_eq_map,
        List.map_cons, List.map_map]
    have hhead : ((a ++ L.flatten).drop (0 * k)).take k = a := by
      rw [Nat.zero_mul, List.drop_zero, ← ha, List.take_left]
    have htail :
        (List.range L.length).map
            ((fun r => ((a ++ L.flatten).drop (r * k)).take k) ∘ Nat.succ)
          = toRows k L.length L.flatten := by
      rw [toRows]
      congr 1
      funext r
      simp only [Function.comp]
      have hd : (a ++ L.flatten).drop (Nat.succ r * k) = L.flatten.drop (r * k) := by
        rw [Nat.succ_mul, Nat.add_comm (r * k) k, ← List.drop_drop,
            List.drop_left' ha]
      rw [hd]
    rw [hhead, htail, ih (fun l hl => hmem l (List.mem_cons_of_mem a hl))]

/-! ### Concrete states and oracles used by the witnesses -/

/-- A concrete localize response. -/
def sampleResponse (found : Bool) (ids : List String) : ILocalizeResponse where
  poseFound := found
  position := { x := 1, y := 2, z := 3 }
  rotation := { x := 0, y := 0, z := 0, w := 1 }
  retrieval_scores := [1 / 2]
  num_matches := [10]
  confidence := 9 / 10
  retrieved_imgs := []
  mapIds := ids

/-- A concrete client configuration with the given stored token. -/
def sampleClient (tok : Option String) : ClientState where
  mapType := .map
  code := "MAP1"
  accessToken := tok

/-- A network oracle answering the localization POST with a
`poseFound = false` body and failing every detail fetch. -/
def netNoPose : NetOracle where
  localize := .ok (sampleResponse false [])
  mapDetails := fun _ => .error ()

/-- A network oracle answering with `poseFound = true` and `mapIds =
["m1"]`, and failing every detail fetch. -/
def netPoseDetailFail : NetOracle where
  localize := .ok (sampleResponse true ["m1"])
  mapDetails := fun _ => .error ()

/-- A concrete captured frame. -/
def sampleFrame : IFrameCaptureEvent where
  blob := { size := 100 }
  width := 640
  height := 480

/-- A concrete intrinsics payload. -/
def sampleIntrinsics : ICameraIntrinsicsEvent where
  fx := 500
  fy := 500
  px := 320
  py := 240
  width := 640
  height := 480

/-- The state an initialize call from the constructor state produces:
renderer/camera/scene/loop/button/resize handles allocated, resize
listener registered, button in the document, no XR session yet. -/
def readyState : WxState where
  renderer := some
    { id := 0
      xr := { session := none, referenceSpace := none,
              isPresenting := false, sessionListenerPairs := 1 }
      animationLoopSet := true }
  camera := some 1
  scene := some 2
  animationLoop := some 3
  arButton := some 5
  resizeHandler := some 4
  isSessionActive := false
  windowResizeListeners := {4}
  docChildren := {5}
  nextId := 6

/-- A frame oracle reporting tracking loss. -/
def idleFrameOracle : FrameOracle where
  viewerPose := none

/-- A secure-context environment. -/
def secureEnv : InitEnv where
  secureContext := true

/-- A concrete perspective projection matrix: `p 0 = 3/2`, `p 5 = 2`,
`p 8 = p 9 = 0`. -/
def samplePerspective : Fin 16 → ℚ := fun i =>
  if i = 0 then 3 / 2 else if i = 5 then 2 else if i = 10 then -1 else 0

/-! ### Claim theorems -/

/-- C1: for every camera view with pixel dimensions `width` and `height`
and every column-major projection matrix `p`, the intrinsics produced
during capture (the viewport offsets are 0 in `captureFrame`) are exactly
`fx = (width/2)*p 0`, `fy = (height/2)*p 5`, `px = (1 - p 8)*width/2`,
`py = (1 - p 9)*height/2`, with the returned width and height equal to the
view's pixel dimensions. -/
theorem getCameraIntrinsics_capture_formula (p : Fin 16 → ℚ) (width height : ℚ) :
    getCameraIntrinsics p { width := width, height := height, x := 0, y := 0 } =
      { fx := width / 2 * p 0, fy := height / 2 * p 5,
        px := (1 - p 8) * width / 2, py := (1 - p 9) * height / 2,
        width := width, height := height } := by
  simp only [getCameraIntrinsics]
  congr 1 <;> ring

/-- C2: `captureFrame` rejects with the not-initialized error when the
renderer or camera handle is missing; an initialized controller with no
live session rejects with the no-active-session error; with a session but
no reference space it rejects with the no-reference-space error.  In each
case the event log is empty: no frame callback is scheduled and no network
or notification activity happens, for every network and frame oracle. -/
theorem captureFrame_precondition_order (st : WxState) (cs : ClientState)
    (fo : FrameOracle) (net : NetOracle) :
    (st.renderer = none ∨ st.camera = none →
      captureFrame st cs fo net = (.error (.notInitialized "WebXR"), [])) ∧
    (∀ r c, st.renderer = some r → st.camera = some c → r.xr.session = none →
      captureFrame st cs fo net = (.error .noActiveSession, [])) ∧
    (∀ r c s, st.renderer = some r → st.camera = some c →
      r.xr.session = some s → r.xr.referenceSpace = none →
      captureFrame st cs fo net = (.error .noReferenceSpace, [])) := by
  refine ⟨?_, ?_, ?_⟩
  · rintro (h | h)
    · cases hc : st.camera <;> simp [captureFrame, h, hc]
    · cases hr : st.renderer <;> simp [captureFrame, h, hr]
  · intro r c hr hc hs
    simp [captureFrame, hr, hc, hs]
  · intro r c s hr hc hs hrs
    simp [captureFrame, hr, hc, hs, hrs]

/-- C3: with a stored token, a service response carrying
`poseFound = false` makes `localizeWithFrame` resolve with `null`, not
with a result object. -/
theorem localizeWithFrame_poseNotFound_null (cs : ClientState) (net : NetOracle)
    (frame : IFrameCaptureEvent) (intrinsics : ICameraIntrinsicsEvent)
    (tok : String) (data : ILocalizeResponse)
    (htok : cs.accessToken = some tok)
    (hresp : net.localize = .ok data)
    (hpose : data.poseFound = false) :
    (localizeWithFrame cs net frame intrinsics).1 = .ok none := by
  simp [localizeWithFrame, queryLocalization, htok, hresp, hpose]

/-- C4: with a stored token, a `poseFound = true` response whose `mapIds`
list starts with `m` triggers exactly one map-detail fetch, keyed by `m`;
when that fetch fails, the failure surfaces only through the error
notification and the call still resolves with a non-null result carrying
the localize data and no map details. -/
theorem localizeWithFrame_detail_fetch_failure (cs : ClientState)
    (net : NetOracle) (frame : IFrameCaptureEvent)
    (intrinsics : ICameraIntrinsicsEvent) (tok : String)
    (data : ILocalizeResponse) (m : String) (rest : List String)
    (htok : cs.accessToken = some tok)
    (hresp : net.localize = .ok data)
    (hpose : data.poseFound = true)
    (hids : data.mapIds = m :: rest)
    (hfail : net.mapDetails m = .error ()) :
    localizeWithFrame cs net frame intrinsics =
      (.ok (some { localizeData := data, mapDetails := none }),
       [.frameCaptured frame, .cameraIntrinsics intrinsics, .localizePost,
        .mapDetailsGet m, .errorNotified, .poseResult data]) ∧
    ((localizeWithFrame cs net frame intrinsics).2.filter Event.isMapDetailsGet)
      = [.mapDetailsGet m] := by
  have hrun : localizeWithFrame cs net frame intrinsics =
      (.ok (some { localizeData := data, mapDetails := none }),
       [.frameCaptured frame, .cameraIntrinsics intrinsics, .localizePost,
        .mapDetailsGet m, .errorNotified, .poseResult data]) := by
    simp [localizeWithFrame, queryLocalization, fetchMapDetails,
          htok, hresp, hpose, hids, hfail]
  refine ⟨hrun, ?_⟩
  rw [hrun]
  simp [Event.isMapDetailsGet]

/-- C5: without a stored access token, `localizeWithFrame` rejects with
the missing-token error; the empty event log shows that neither the
frame-captured nor the intrinsics notification fires and no network
request is made, for every network oracle. -/
theorem localizeWithFrame_missingToken (cs : ClientState) (net : NetOracle)
    (frame : IFrameCaptureEvent) (intrinsics : ICameraIntrinsicsEvent)
    (htok : cs.accessToken = none) :
    localizeWithFrame cs net frame intrinsics = (.error .missingToken, []) := by
  simp [localizeWithFrame, htok]

/-- C6: initialization is idempotent — whenever a call to the initializer
succeeds with state `st1` and button `b`, a further call from `st1` (under
any environment) returns exactly the same button, leaves the state
unchanged (so no second render loop, no duplicate session-start/end or
resize listeners, nothing new in the document) and fires no callback. -/
theorem initializeController_idempotent (st st1 : WxState)
    (env env2 : InitEnv) (b : Nat)
    (h : (initializeController st env).1 = .ok (st1, b)) :
    initializeController st1 env2 = (.ok (st1, b), []) := by
  cases hr : st.renderer with
  | some r =>
    rw [initializeController, hr] at h
    simp only [Except.ok.injEq, Prod.mk.injEq] at h
    obtain ⟨hst, hb⟩ := h
    subst hst
    rw [initializeController, hr, hb]
  | none =>
    cases hsec : env.secureContext with
    | false =>
      rw [initializeController, hr] at h
      simp [hsec] at h
    | true =>
      rw [initializeController, hr] at h
      simp only [hsec, Bool.not_true, Bool.false_eq_true, if_neg,
        Except.ok.injEq, Prod.mk.injEq, ite_false] at h
      obtain ⟨hst, hb⟩ := h
      subst hst
      subst hb
      rfl

/-- C7: the vertical flip performed during capture is an involution — for
every positive width and height and every RGBA buffer of length
`width * height * 4`, flipping twice returns the original buffer
exactly. -/
theorem flipVertical_involution (w h : Nat) (buf : List Nat)
    (hw : 0 < w) (hh : 0 < h) (hlen : buf.length = w * h * 4) :
    flipVertical w h (flipVertical w h buf) = buf := by
  have hlen' : buf.length = h * (w * 4) := by rw [hlen]; ring
  have hR : ∀ l ∈ (toRows (w * 4) h buf).reverse, l.length = w * 4 := by
    intro l hl
    exact toRows_mem_length (w * 4) h buf hlen' l (List.mem_reverse.mp hl)
  have hRlen : (toRows (w * 4) h buf).reverse.length = h := by
    simp [toRows]
  rw [flipVertical_eq_reverse_rows w h buf,
      flipVertical_eq_reverse_rows w h ((toRows (w * 4) h buf).reverse.flatten)]
  have h1 : toRows (w * 4) h ((toRows (w * 4) h buf).reverse.flatten)
      = (toRows (w * 4) h buf).reverse := by
    have h2 := toRows_flatten (w * 4) ((toRows (w * 4) h buf).reverse) hR
    rwa [hRlen] at h2
  rw [h1, List.reverse_reverse, flatten_toRows (w * 4) h buf hlen']

/-- C8: `dispose` clears every handle to the not-initialized state,
removes the resize listener it registered from the window, drops the
renderer (which owns the session-start/end listeners), detaches the AR
button from the document, is idempotent (safe to call again), and leaves
every accessor failing with its not-initialized error. -/
theorem dispose_spec (st : WxState) :
    (dispose st).renderer = none ∧ (dispose st).camera = none ∧
    (dispose st).scene = none ∧ (dispose st).animationLoop = none ∧
    (dispose st).arButton = none ∧
    (∀ h, st.resizeHandler = some h → h ∉ (dispose st).windowResizeListeners) ∧
    (∀ b, st.arButton = some b → b ∉ (dispose st).docChildren) ∧
    dispose (dispose st) = dispose st ∧
    getScene (dispose st) = .error (.notInitialized "Scene") ∧
    getCamera (dispose st) = .error (.notInitialized "Camera") ∧
    getRenderer (dispose st) = .error (.notInitialized "Renderer") := by
  refine ⟨rfl, rfl, rfl, rfl, rfl, ?_, ?_, ?_, rfl, rfl, rfl⟩
  · intro h hh
    simp only [dispose, hh]
    exact Finset.not_mem_erase h st.windowResizeListeners
  · intro b hb
    simp only [dispose, hb]
    by_cases hmem : b ∈ st.docChildren
    · rw [if_pos hmem]
      exact Finset.not_mem_erase b st.docChildren
    · rw [if_neg hmem]
      exact hmem
  · cases hrh : st.resizeHandler with
    | none => simp [dispose, hrh]
    | some hh => simp [dispose, hrh, Finset.erase_idem]

/-- C9: two independent bounds on intrinsics derived during capture on a
view with positive pixel dimensions.  First, for every standard
perspective projection (`p 0 > 0` and `p 5 > 0`) the focal lengths are
positive — regardless of `p 8` and `p 9`.  Second, whenever `p 8` and
`p 9` lie in `[-1, 1]` the principal point lies in
`[0, width] × [0, height]` — regardless of `p 0` and `p 5`. -/
theorem getCameraIntrinsics_bounds (p : Fin 16 → ℚ) (w h : ℚ)
    (hw : 0 < w) (hh : 0 < h) :
    (0 < p 0 → 0 < p 5 →
      0 < (getCameraIntrinsics p { width := w, height := h, x := 0, y := 0 }).fx ∧
      0 < (getCameraIntrinsics p { width := w, height := h, x := 0, y := 0 }).fy) ∧
    (-1 ≤ p 8 → p 8 ≤ 1 → -1 ≤ p 9 → p 9 ≤ 1 →
      0 ≤ (getCameraIntrinsics p { width := w, height := h, x := 0, y := 0 }).px ∧
      (getCameraIntrinsics p { width := w, height := h, x := 0, y := 0 }).px ≤ w ∧
      0 ≤ (getCameraIntrinsics p { width := w, height := h, x := 0, y := 0 }).py ∧
      (getCameraIntrinsics p { width := w, height := h, x := 0, y := 0 }).py ≤ h) := by
  simp only [getCameraIntrinsics]
  constructor
  · intro hp0 hp5
    exact ⟨by positivity, by positivity⟩
  · intro hp8l hp8r hp9l hp9r
    refine ⟨by nlinarith, by nlinarith, by nlinarith, by nlinarith⟩

/-- C10: after `dispose` returns, `hasActiveSession` is `false` for every
prior controller state — even though `dispose` leaves the internal
session-active flag untouched (second conjunct), the live-renderer
requirement of `hasActiveSession` fails. -/
theorem hasActiveSession_after_dispose (st : WxState) :
    hasActiveSession (dispose st) = false ∧
    (dispose st).isSessionActive = st.isSessionActive := by
  exact ⟨by simp [hasActiveSession, dispose], rfl⟩

/-! ### Witnesses -/

/-- Witness for C2: an initialized controller whose renderer has no
session rejects the capture with the no-active-session error and an empty
event log. -/
theorem captureFrame_precondition_order_witness :
    captureFrame readyState (sampleClient none) idleFrameOracle netNoPose
      = (.error .noActiveSession, []) :=
  (captureFrame_precondition_order readyState (sampleClient none)
    idleFrameOracle netNoPose).2.1 _ 1 rfl rfl rfl

/-- Witness for C3 at a concrete client, oracle and frame. -/
theorem localizeWithFrame_poseNotFound_null_witness :
    (localizeWithFrame (sampleClient (some "abc")) netNoPose sampleFrame
      sampleIntrinsics).1 = .ok none :=
  localizeWithFrame_poseNotFound_null (sampleClient (some "abc")) netNoPose
    sampleFrame sampleIntrinsics "abc" (sampleResponse false []) rfl rfl rfl

/-- Witness for C4 at a concrete client, oracle and frame. -/
theorem localizeWithFrame_detail_fetch_failure_witness :
    localizeWithFrame (sampleClient (some "abc")) netPoseDetailFail sampleFrame
        sampleIntrinsics =
      (.ok (some { localizeData := sampleResponse true ["m1"], mapDetails := none }),
       [.frameCaptured sampleFrame, .cameraIntrinsics sampleIntrinsics,
        .localizePost, .mapDetailsGet "m1", .errorNotified,
        .poseResult (sampleResponse true ["m1"])]) ∧
    ((localizeWithFrame (sampleClient (some "abc")) netPoseDetailFail sampleFrame
        sampleIntrinsics).2.filter Event.isMapDetailsGet)
      = [.mapDetailsGet "m1"] :=
  localizeWithFrame_detail_fetch_failure (sampleClient (some "abc"))
    netPoseDetailFail sampleFrame sampleIntrinsics "abc"
    (sampleResponse true ["m1"]) "m1" [] rfl rfl rfl rfl rfl

/-- Witness for C5: with no stored token the call rejects with the
missing-token error and an empty event log. -/
theorem localizeWithFrame_missingToken_witness :
    localizeWithFrame (sampleClient none) netNoPose sampleFrame sampleIntrinsics
      = (.error .missingToken, []) :=
  localizeWithFrame_missingToken (sampleClient none) netNoPose sampleFrame
    sampleIntrinsics rfl

/-- Witness for C6: a second initialize call from the state the first one
produced returns the same button with no state change and no events. -/
theorem initializeController_idempotent_witness :
    initializeController readyState secureEnv = (.ok (readyState, 5), []) :=
  initializeController_idempotent initialState readyState secureEnv secureEnv 5
    (by rfl)

/-- Witness for C7 on a concrete 1x2 RGBA buffer. -/
theorem flipVertical_involution_witness :
    ([0, 1, 2, 3, 4, 5, 6, 7] : List Nat).length = 1 * 2 * 4 ∧
    flipVertical 1 2 (flipVertical 1 2 [0, 1, 2, 3, 4, 5, 6, 7])
      = [0, 1, 2, 3, 4, 5, 6, 7] :=
  ⟨by decide,
   flipVertical_involution 1 2 [0, 1, 2, 3, 4, 5, 6, 7]
     (by decide) (by decide) (by decide)⟩

/-- Witness for C8 at a concrete initialized state (resize handler 4, AR
button 5). -/
theorem dispose_spec_witness :
    (dispose readyState).renderer = none ∧
    4 ∉ (dispose readyState).windowResizeListeners ∧
    5 ∉ (dispose readyState).docChildren ∧
    dispose (dispose readyState) = dispose readyState ∧
    getScene (dispose readyState) = .error (.notInitialized "Scene") :=
  ⟨(dispose_spec readyState).1,
   (dispose_spec readyState).2.2.2.2.2.1 4 rfl,
   (dispose_spec readyState).2.2.2.2.2.2.1 5 rfl,
   (dispose_spec readyState).2.2.2.2.2.2.2.1,
   (dispose_spec readyState).2.2.2.2.2.2.2.2.1⟩

/-- Witness for C9 at a concrete perspective matrix and a 640x480 view,
exercising both parts of the theorem. -/
theorem getCameraIntrinsics_bounds_witness :
    (0 < (getCameraIntrinsics samplePerspective
      { width := 640, height := 480, x := 0, y := 0 }).fx ∧
    0 < (getCameraIntrinsics samplePerspective
      { width := 640, height := 480, x := 0, y := 0 }).fy) ∧
    (0 ≤ (getCameraIntrinsics samplePerspective
      { width := 640, height := 480, x := 0, y := 0 }).px ∧
    (getCameraIntrinsics samplePerspective
      { width := 640, height := 480, x := 0, y := 0 }).px ≤ 640 ∧
    0 ≤ (getCameraIntrinsics samplePerspective
      { width := 640, height := 480, x := 0, y := 0 }).py ∧
    (getCameraIntrinsics samplePerspective
      { width := 640, height := 480, x := 0, y := 0 }).py ≤ 480) :=
  ⟨(getCameraIntrinsics_bounds samplePerspective 640 480 (by norm_num)
      (by norm_num)).1
    (by rw [show samplePerspective 0 = 3 / 2 from rfl]; norm_num)
    (by rw [show samplePerspective 5 = 2 from rfl]; norm_num),
   (getCameraIntrinsics_bounds samplePerspective 640 480 (by norm_num)
      (by norm_num)).2
    (by rw [show samplePerspective 8 = 0 from rfl]; norm_num)
    (by rw [show samplePerspective 8 = 0 from rfl]; norm_num)
    (by rw [show samplePerspective 9 = 0 from rfl]; norm_num)
    (by rw [show samplePerspective 9 = 0 from rfl]; norm_num)⟩

end MultisetVps
